import Mathlib

/-!
Verification development for the call-construction pipeline of
`google/gax/api_callable.py`: retry with exponential backoff, page
streaming, bundling, error wrapping, and the composition logic of
`create_api_call`.

The Python source is shallowly embedded: machine floats for wall-clock
seconds and millisecond settings become `ℚ`; the stateful retry loop of
`_retryable.inner` becomes a recursive function driven by a trace of
environment events (one per loop iteration: the outcome of the wrapped
call, the random draw used for the jittered sleep, and the wall-clock
value observed by `time.time()` after the sleep); generators become
explicit step machines.  Fallible code returns `Option`/`Except`.
-/

/-- Constant `_MILLIS_PER_SECOND = 1000` from the source. -/
def MILLIS_PER_SECOND : ℚ := 1000

/-- Embedding of `BackoffSettings`: the seven numeric fields, all in the
units the configuration uses (milliseconds for delays/timeouts, plain
numbers for multipliers), exactly as the Python object carries them. -/
structure BackoffSettings where
  initial_retry_delay_millis : ℚ
  retry_delay_multiplier : ℚ
  max_retry_delay_millis : ℚ
  initial_rpc_timeout_millis : ℚ
  rpc_timeout_multiplier : ℚ
  max_rpc_timeout_millis : ℚ
  total_timeout_millis : ℚ
  deriving DecidableEq

/-- Embedding of `RetryOptions`: the set of transient-classified status
codes plus the backoff settings.  Status codes are modelled as integers. -/
structure RetryOptions where
  retry_codes : List ℤ
  backoff_settings : BackoffSettings
  deriving DecidableEq

/-- An exception value raised by the wrapped callable.  `code` models
`config.exc_to_code(exception)` (the external classification contract);
`payload` gives distinct exceptions distinct identities so that
"wraps the original cause" is expressible. -/
structure Exc where
  code : ℤ
  payload : ℕ
  deriving DecidableEq

/-- Outcome of one invocation of the wrapped callable `a_func`. -/
inductive CallOutcome (ρ : Type) where
  | success (resp : ρ)
  | failure (e : Exc)
  deriving DecidableEq

/-- One loop iteration's worth of environment behaviour for
`_retryable.inner`: the outcome of calling `a_func`, the value drawn by
`random.uniform(0, delay)`, and the value `time.time()` returns after the
`time.sleep` (used only on the transient-failure path). -/
structure IterInput (ρ : Type) where
  outcome : CallOutcome ρ
  u : ℚ
  tAfterSleep : ℚ
  deriving DecidableEq

/-- The errors `_retryable.inner` can raise, all of Python type
`RetryError`:
* `deadlineNoAttempt` — the initial
  `RetryError('Retry total timeout exceeded before any response was
  received')`, raised if the loop body never replaced `exc`;
* `deadlineWith e` — `RetryError('Retry total timeout exceeded with
  exception', e)`, raised at deadline exhaustion wrapping the last
  transient cause `e`;
* `nonRetryable e` — `RetryError('Exception occurred in retry method that
  was not classified as transient', e)`, raised immediately on a failure
  whose code is not in `retry_codes`. -/
inductive RetryRaise where
  | deadlineNoAttempt
  | deadlineWith (e : Exc)
  | nonRetryable (e : Exc)
  deriving DecidableEq

/-- Whether a `RetryRaise` is one of the two deadline-exceeded forms. -/
def RetryRaise.isDeadlineExceeded : RetryRaise → Bool
  | .deadlineNoAttempt => true
  | .deadlineWith _ => true
  | .nonRetryable _ => false

/-- Result of the retry-wrapped call: a response or a raised `RetryError`. -/
inductive RetryOutcome (ρ : Type) where
  | ok (resp : ρ)
  | err (e : RetryRaise)
  deriving DecidableEq

/-- Observable record of one attempt made by the retry loop: the clock
value `now` held when the iteration began, the per-attempt `timeout`
passed to the call, and the `delay` bound in force for the jittered sleep
that follows the attempt should it fail transiently. -/
structure AttemptRecord where
  nowAt : ℚ
  timeout : ℚ
  delayBound : ℚ
  deriving DecidableEq

/-- Full observable behaviour of one invocation of the retry-wrapped
call: its outcome, the attempts made (in order), the slept durations in
seconds (in order, one per transient failure), and the final value of
`now` held when the function returned or raised. -/
structure RetryRun (ρ : Type) where
  outcome : RetryOutcome ρ
  attempts : List AttemptRecord
  sleeps : List ℚ
  finalNow : ℚ
  deriving DecidableEq

/-- Line 123 of the source:
`delay = min(delay * delay_mult, max_delay)`. -/
def delayUpdate (delay delayMult maxDelay : ℚ) : ℚ :=
  min (delay * delayMult) maxDelay

/-- Lines 124-125 of the source:
`timeout = min(timeout * timeout_mult, max_timeout, deadline - now)`. -/
def timeoutUpdate (timeout timeoutMult maxTimeout rem : ℚ) : ℚ :=
  min (min (timeout * timeoutMult) maxTimeout) rem

/-- The `while now < deadline` loop of `_retryable.inner` (lines
105-128), driven by a finite trace of environment events.  Arguments
after the configuration mirror the loop-carried Python state: `now`,
`delay`, `timeout`, and the pending exception `exc`.  `none` means the
trace was too short to decide the run (the loop would have iterated
again); otherwise the run records outcome, attempts, sleeps and the final
`now`.  A transient failure sleeps `u / 1000` seconds (the source's
`time.sleep(to_sleep / _MILLIS_PER_SECOND)`), observes the clock, and
updates `delay` and `timeout` by `delayUpdate`/`timeoutUpdate`. -/
def retryLoopAux {ρ : Type} (codes : List ℤ)
    (delayMult maxDelay timeoutMult maxTimeout deadline : ℚ) :
    List (IterInput ρ) → ℚ → ℚ → ℚ → RetryRaise → Option (RetryRun ρ)
  | [], now, _, _, exc =>
    if now < deadline then none
    else some ⟨.err exc, [], [], now⟩
  | it :: rest, now, delay, timeout, exc =>
    if now < deadline then
      match it.outcome with
      | .success r => some ⟨.ok r, [⟨now, timeout, delay⟩], [], now⟩
      | .failure e =>
        if e.code ∈ codes then
          match retryLoopAux codes delayMult maxDelay timeoutMult maxTimeout
              deadline rest it.tAfterSleep
              (delayUpdate delay delayMult maxDelay)
              (timeoutUpdate timeout timeoutMult maxTimeout
                (deadline - it.tAfterSleep))
              (.deadlineWith e) with
          | none => none
          | some run =>
            some ⟨run.outcome, ⟨now, timeout, delay⟩ :: run.attempts,
              it.u / MILLIS_PER_SECOND :: run.sleeps, run.finalNow⟩
        else
          some ⟨.err (.nonRetryable e), [⟨now, timeout, delay⟩], [], now⟩
    else some ⟨.err exc, [], [], now⟩

/-- Embedding of `_retryable` (lines 68-130): unit conversions done at
wrap time (`max_delay`, `max_timeout`, `total_timeout` divided by
`_MILLIS_PER_SECOND`; note `delay` is initialised to
`initial_retry_delay_millis` with NO conversion, exactly as in the
source, while `timeout` is converted), then the loop started at clock
value `t0` (the `now = time.time()` of line 102) with
`deadline = now + total_timeout` and the generic no-response error
pending. -/
def retryable {ρ : Type} (retry : RetryOptions) (t0 : ℚ)
    (trace : List (IterInput ρ)) : Option (RetryRun ρ) :=
  let delayMult := retry.backoff_settings.retry_delay_multiplier
  let maxDelay := retry.backoff_settings.max_retry_delay_millis /
    MILLIS_PER_SECOND
  let timeoutMult := retry.backoff_settings.rpc_timeout_multiplier
  let maxTimeout := retry.backoff_settings.max_rpc_timeout_millis /
    MILLIS_PER_SECOND
  let totalTimeout := retry.backoff_settings.total_timeout_millis /
    MILLIS_PER_SECOND
  let delay := retry.backoff_settings.initial_retry_delay_millis
  let timeout := retry.backoff_settings.initial_rpc_timeout_millis /
    MILLIS_PER_SECOND
  let deadline := t0 + totalTimeout
  retryLoopAux retry.retry_codes delayMult maxDelay timeoutMult maxTimeout
    deadline trace t0 delay timeout .deadlineNoAttempt

/-- Boolean test that a call outcome is a transient-classified failure. -/
def isTransientB {ρ : Type} (codes : List ℤ) : CallOutcome ρ → Bool
  | .failure e => decide (e.code ∈ codes)
  | .success _ => false

/-- Embedding of `PageDescriptor`: the three field names it carries. -/
structure PageDescriptor where
  request_page_token_field : String
  response_page_token_field : String
  resource_field : String
  deriving DecidableEq

/-- Embedding of `BundleDescriptor`: only the discriminator-field list is
consumed by this module. -/
structure BundleDescriptor where
  request_discriminator_fields : List String
  deriving DecidableEq

/-- The duck-typed field accesses performed by `_page_streamable` through
a `PageDescriptor`: `getattr(response, resource_field)`,
`getattr(response, response_page_token_field)`, and
`setattr(request, request_page_token_field, token)`. -/
structure PageFuns (Req Resp ρ : Type) where
  resources : Resp → List ρ
  nextToken : Resp → String
  setToken : Req → String → Req

/-- Suspension state of the Python generator `_page_streamable.flattened`
between pulls: not yet started (body not entered, holding the caller's
request), suspended at a yield (resources still pending from the current
response, that response's continuation token, the current request), or
finished. -/
inductive FlatState (Req ρ : Type) where
  | start (req : Req)
  | mid (pending : List ρ) (tok : String) (req : Req)
  | done
  deriving DecidableEq

/-- Result of one pull on the flattened generator: the element yielded
(`none` means `StopIteration`), the new suspension state, and the
requests passed to the underlying call during this pull, in order. -/
structure PullResult (Req ρ : Type) where
  yielded : Option ρ
  state : FlatState Req ρ
  calls : List Req
  deriving DecidableEq

/-- One pull on the generator of `_page_streamable.flattened` (lines
182-195).  From `start` the body runs `response = a_func(request)` with
the request exactly as given; after the pending resources of a response
are exhausted the token is read, an empty token breaks the loop, and a
non-empty one is written into the request before the next call.  `fuel`
bounds the number of consecutive underlying calls inside a single pull
(several happen only when pages are empty); `none` means fuel ran out. -/
def flatPull {Req Resp ρ : Type} (call : Req → Resp)
    (pf : PageFuns Req Resp ρ) :
    ℕ → FlatState Req ρ → Option (PullResult Req ρ)
  | _, .done => some ⟨none, .done, []⟩
  | _, .mid (x :: rest) tok req => some ⟨some x, .mid rest tok req, []⟩
  | fuel, .mid [] tok req =>
    if tok = "" then some ⟨none, .done, []⟩
    else
      match fuel with
      | 0 => none
      | fuel' + 1 =>
        let req' := pf.setToken req tok
        let resp := call req'
        match flatPull call pf fuel'
            (.mid (pf.resources resp) (pf.nextToken resp) req') with
        | none => none
        | some r => some ⟨r.yielded, r.state, req' :: r.calls⟩
  | fuel, .start req =>
    match fuel with
    | 0 => none
    | fuel' + 1 =>
      let resp := call req
      match flatPull call pf fuel'
          (.mid (pf.resources resp) (pf.nextToken resp) req) with
      | none => none
      | some r => some ⟨r.yielded, r.state, req :: r.calls⟩

/-- Accumulated behaviour of consuming the flattened generator: the
elements yielded so far, every request passed to the underlying call so
far, and the suspension state reached. -/
structure RunResult (Req ρ : Type) where
  yielded : List ρ
  calls : List Req
  state : FlatState Req ρ
  deriving DecidableEq

/-- Consume up to `pulls` elements from the flattened generator, exactly
as a caller iterating it would: each pull that yields an element
continues, the pull that raises `StopIteration` ends consumption.
Stopping earlier (smaller `pulls`) models a caller abandoning the
iterator: no further underlying calls occur. -/
def flatRun {Req Resp ρ : Type} (call : Req → Resp)
    (pf : PageFuns Req Resp ρ) (fuel : ℕ) :
    ℕ → FlatState Req ρ → Option (RunResult Req ρ)
  | 0, s => some ⟨[], [], s⟩
  | pulls + 1, s =>
    match flatPull call pf fuel s with
    | none => none
    | some pr =>
      match pr.yielded with
      | none => some ⟨[], pr.calls, pr.state⟩
      | some x =>
        match flatRun call pf fuel pulls pr.state with
        | none => none
        | some rr => some ⟨x :: rr.yielded, pr.calls ++ rr.calls, rr.state⟩

/-- Modelled from the spec: the `PageIterator` class is imported from the
package root and is not under `src/`; section 4.3 of the specification
says of paged (unflattened) mode that "the initial page token, if
supplied in settings, seeds the first request before the first call".
This function gives the first request `PageIterator` issues. -/
def pageIteratorFirstRequest {Req Resp ρ : Type}
    (pf : PageFuns Req Resp ρ) (page_token : Option String) (req : Req) :
    Req :=
  match page_token with
  | some tok => pf.setToken req tok
  | none => req

/-- Modelled from the spec: `bundling.compute_bundle_id` lives in the
`bundling` module, which is not under `src/`; section 4.4 of the
specification says the bundle key is computed "by extracting and
concatenating the configured discriminator fields (order-sensitive,
values converted to a comparable/hashable form)".  Requests are modelled
as field valuations; the key is the ordered list of discriminator-field
values. -/
def compute_bundle_id (request : String → String)
    (discriminator_fields : List String) : List String :=
  discriminator_fields.map request

/-- What `_bundleable.inner` (lines 154-159) hands to
`bundler.schedule`: the computed bundle id, the descriptor, and the
request itself.  The dispatcher is external; this records the call. -/
structure ScheduledBundle where
  the_id : List String
  desc : BundleDescriptor
  request : String → String

/-- Embedding of `_bundleable` (lines 133-161): compute the bundle id
from the request and the descriptor's discriminator fields, then
delegate to the dispatcher's `schedule`. -/
def bundleable (desc : BundleDescriptor) (request : String → String) :
    ScheduledBundle :=
  ⟨compute_bundle_id request desc.request_discriminator_fields, desc,
    request⟩

/-- An exception as seen by `_catch_errors`: either a plain exception of
some Python type name, or a `GaxError('RPC failed', cause=...)` wrapper. -/
inductive RaisedError where
  | plain (typ : String)
  | gaxWrapped (cause : RaisedError)
  deriving DecidableEq

/-- The Python type name an exception value is matched against by the
`except tuple(errors)` clause. -/
def RaisedError.typeName : RaisedError → String
  | .plain t => t
  | .gaxWrapped _ => "GaxError"

/-- Embedding of `_catch_errors` (lines 413-432) applied to the result of
the inner callable: an exception whose type is in `errors` is re-raised
as `GaxError('RPC failed', cause=exception)`; any other exception, and
any successful result, passes through unchanged. -/
def catch_errors {ρ : Type} (errors : List String)
    (result : Except RaisedError ρ) : Except RaisedError ρ :=
  match result with
  | .ok v => .ok v
  | .error e =>
    if e.typeName ∈ errors then .error (.gaxWrapped e) else .error e

/-- Embedding of `CallSettings`: the fields `create_api_call` reads.  The
bundler (an externally owned `bundling.Executor`) is opaque, identified
by a number; `none` models Python `None` for each optional field. -/
structure CallSettings where
  timeout : ℚ
  retry : Option RetryOptions
  page_descriptor : Option PageDescriptor
  bundler : Option ℕ
  bundle_descriptor : Option BundleDescriptor
  flatten_pages : Option Bool
  page_token : Option String
  deriving DecidableEq

/-- The first decorator applied by `create_api_call` (lines 463-466):
either the retry wrapper (when retry is configured with a non-empty
code set) or plain timeout injection. -/
inductive InnerCall where
  | retrying (retry : RetryOptions)
  | timeoutArg (timeout : ℚ)
  deriving DecidableEq

/-- The wrapper chain `create_api_call` returns: page streaming, bundling
or error wrapping, each around the timeout-or-retry layer. -/
inductive ApiCall where
  | pageStream (inner : InnerCall) (pd : PageDescriptor)
      (page_token : Option String) (flatten : Bool)
  | bundled (inner : InnerCall) (bd : BundleDescriptor) (bundler : ℕ)
  | catchErrors (inner : InnerCall) (errors : List String)
  deriving DecidableEq

/-- The `ValueError` message of lines 470-471. -/
def incompatibleSettingsMsg : String :=
  "The API call has incompatible settings: bundling and page streaming"

/-- Embedding of `create_api_call` (lines 435-486) as the wrapper chain
it composes.  `api_errors` stands for `config.API_ERRORS` (the external
recognized-transport-error set).  Python truthiness of
`settings.retry and settings.retry.retry_codes` is `retry` non-`None`
with a non-empty code list; `settings.bundler and
settings.bundle_descriptor` is both non-`None`.  Returning
`Except.error` models the `ValueError` raised at composition time,
before any callable exists to be invoked. -/
def create_api_call (api_errors : List String) (settings : CallSettings) :
    Except String ApiCall :=
  let api_call : InnerCall :=
    match settings.retry with
    | some r =>
      if r.retry_codes ≠ [] then .retrying r
      else .timeoutArg settings.timeout
    | none => .timeoutArg settings.timeout
  match settings.page_descriptor with
  | some pd =>
    match settings.bundler, settings.bundle_descriptor with
    | some _, some _ => .error incompatibleSettingsMsg
    | _, _ =>
      let flatten :=
        match settings.flatten_pages with
        | none => true
        | some b => b
      .ok (.pageStream api_call pd settings.page_token flatten)
  | none =>
    match settings.bundler, settings.bundle_descriptor with
    | some b, some bd => .ok (.bundled api_call bd b)
    | _, _ => .ok (.catchErrors api_call api_errors)

/-- Whether the composed chain contains the error-wrapping layer. -/
def usesCatchErrors : ApiCall → Bool
  | .catchErrors _ _ => true
  | _ => false

/-- The condition of line 463: retry configured with non-empty codes. -/
def retryConfigured (settings : CallSettings) : Bool :=
  match settings.retry with
  | some r => !r.retry_codes.isEmpty
  | none => false

/-! ### Concrete fixtures used by counterexamples and witnesses -/

/-- Backoff settings with the delay parameters of the specification's
retry example: initial delay 100 ms, multiplier 2, delay cap 400 ms;
rpc timeout 1000 ms with multiplier 1 and cap 1000 ms; total timeout
10000 ms. -/
def bs1 : BackoffSettings := ⟨100, 2, 400, 1000, 1, 1000, 10000⟩

/-- Retry options over `bs1` treating code 14 as transient. -/
def retry1 : RetryOptions := ⟨[14], bs1⟩

/-- Two transient failures; the clock reaches 11 s (past the 10 s
deadline) after the second sleep. -/
def trace1 : List (IterInput Unit) :=
  [⟨.failure ⟨14, 0⟩, 0, 1⟩, ⟨.failure ⟨14, 1⟩, 0, 11⟩]

/-- The run `retryable retry1 0 trace1` produces: two attempts, the
second with delay bound 2/5 (the unit-mix artefact), ending in the
deadline error wrapping the second exception. -/
def run1w : RetryRun Unit :=
  ⟨.err (.deadlineWith ⟨14, 1⟩), [⟨0, 1, 100⟩, ⟨1, 1, 2/5⟩], [0, 0], 11⟩

/-- A page descriptor fixture. -/
def pd8 : PageDescriptor := ⟨"page_token", "next_page_token", "items"⟩

/-- A bundle descriptor with one discriminator field. -/
def bd8 : BundleDescriptor := ⟨["name"]⟩

/-- Call settings configuring both page streaming and bundling. -/
def settings8 : CallSettings := ⟨30, none, some pd8, some 0, some bd8, none, none⟩

/-- A request valuation whose only difference from `req9b` is outside
the discriminator field `name`. -/
def req9a : String → String := fun f => if f = "name" then "k" else "u"

/-- A request valuation agreeing with `req9a` on `name` only. -/
def req9b : String → String := fun f => if f = "name" then "k" else "v"

/-- Call settings with retry configured (non-empty codes) and neither
page streaming nor bundling. -/
def settings3 : CallSettings := ⟨30, some retry1, none, none, none, none, none⟩

/-- Backoff settings for the timeout-monotonicity counterexample:
initial rpc timeout 2 s, multiplier 2, cap 30 s, total timeout 3 s. -/
def bs5 : BackoffSettings := ⟨100, 2, 400, 2000, 2, 30000, 3000⟩

/-- Retry options over `bs5`. -/
def retry5 : RetryOptions := ⟨[14], bs5⟩

/-- Two transient failures with the clock at 2.5 s and then 3.5 s. -/
def trace5 : List (IterInput Unit) :=
  [⟨.failure ⟨14, 0⟩, 0, 5/2⟩, ⟨.failure ⟨14, 1⟩, 0, 7/2⟩]

/-- The run `retryable retry5 0 trace5` produces: the second attempt's
timeout is 1/2 s, strictly below the first attempt's 2 s and far below
the 30 s cap. -/
def run5w : RetryRun Unit :=
  ⟨.err (.deadlineWith ⟨14, 1⟩), [⟨0, 2, 100⟩, ⟨5/2, 1/2, 2/5⟩], [0, 0], 7/2⟩

/-- Backoff settings with positive initial rpc timeout (1000 ms) but a
zero `max_rpc_timeout_millis`, and a large total timeout. -/
def bs6 : BackoffSettings := ⟨100, 2, 400, 1000, 2, 0, 100000⟩

/-- Retry options over `bs6`. -/
def retry6 : RetryOptions := ⟨[14], bs6⟩

/-- Two transient failures well inside the 100 s deadline. -/
def trace6 : List (IterInput Unit) :=
  [⟨.failure ⟨14, 0⟩, 0, 1⟩, ⟨.failure ⟨14, 1⟩, 0, 200⟩]

/-- Relation between consecutive attempt records of one retry run: the
later attempt's timeout is at most the remaining time to the deadline
measured at the clock value it began with, and the timeout does not
decrease from the earlier attempt unless the earlier timeout already
exceeded the rpc-timeout cap or the remaining deadline. -/
def timeoutStepOk (timeoutMult maxTimeout deadline : ℚ)
    (a b : AttemptRecord) : Prop :=
  b.timeout ≤ deadline - b.nowAt ∧
  (1 ≤ timeoutMult → 0 ≤ a.timeout → a.timeout ≤ maxTimeout →
    a.timeout ≤ deadline - b.nowAt → a.timeout ≤ b.timeout)

/-- A three-page environment: the empty token maps to page [1, 2] with
continuation token `t1`, token `t1` to page [3, 4] with token `t2`, and
any other token to page [5] with the empty continuation token. -/
def call3pages : String → List ℕ × String := fun s =>
  if s = "" then ([1, 2], "t1")
  else if s = "t1" then ([3, 4], "t2")
  else ([5], "")

/-- Field accessors for `call3pages`: a request is just its token field. -/
def pf3pages : PageFuns String (List ℕ × String) ℕ :=
  ⟨Prod.fst, Prod.snd, fun _ tok => tok⟩

/-! ### Helper lemmas about the retry loop -/

/-- On a trace all of whose call outcomes are transient-classified
failures, the loop can only terminate by deadline exhaustion: the final
observed clock value is at least the deadline; if the loop was entered
with time remaining at least one attempt was made; a run with no
attempts raises the pending error unchanged, and a run with attempts
raises the deadline error wrapping the exception of the last consumed
trace entry. -/
theorem retryLoopAux_allTransient {ρ : Type} {codes : List ℤ}
    {dm md tm mt dl : ℚ} (trace : List (IterInput ρ)) :
    ∀ (now delay timeout : ℚ) (exc : RetryRaise) (run : RetryRun ρ),
    (∀ it ∈ trace, isTransientB codes it.outcome = true) →
    retryLoopAux codes dm md tm mt dl trace now delay timeout exc =
      some run →
    (¬ run.finalNow < dl) ∧
    (now < dl → run.attempts ≠ []) ∧
    (run.attempts = [] → run.outcome = .err exc) ∧
    (run.attempts ≠ [] →
      ∃ it e, trace.get? (run.attempts.length - 1) = some it ∧
        it.outcome = .failure e ∧ run.outcome = .err (.deadlineWith e)) := by
  induction trace with
  | nil =>
    intro now delay timeout exc run hall h
    rw [retryLoopAux] at h
    split at h
    · exact absurd h (by simp)
    · rw [Option.some_inj] at h
      subst h
      refine ⟨by assumption, ?_, ?_, ?_⟩ <;> simp_all
  | cons it rest ih =>
    intro now delay timeout exc run hall h
    have htr : isTransientB codes it.outcome = true :=
      hall it (List.mem_cons_self it rest)
    rw [retryLoopAux] at h
    split at h
    case isTrue hnd =>
      obtain ⟨e, hout, hcode⟩ :
          ∃ e, it.outcome = .failure e ∧ e.code ∈ codes := by
        cases hoc : it.outcome with
        | success r => rw [hoc] at htr; simp [isTransientB] at htr
        | failure e =>
          refine ⟨e, rfl, ?_⟩
          rw [hoc] at htr
          simpa [isTransientB] using htr
      simp only [hout] at h
      rw [if_pos hcode] at h
      cases hrec : retryLoopAux codes dm md tm mt dl rest it.tAfterSleep
          (delayUpdate delay dm md)
          (timeoutUpdate timeout tm mt (dl - it.tAfterSleep))
          (.deadlineWith e) with
      | none => rw [hrec] at h; exact absurd h (by simp)
      | some run' =>
        rw [hrec, Option.some_inj] at h
        subst h
        obtain ⟨h1, _, h3, h4⟩ := ih it.tAfterSleep _ _ _ run'
          (fun x hx => hall x (List.mem_cons_of_mem _ hx)) hrec
        refine ⟨h1, fun _ => by simp, by simp, fun _ => ?_⟩
        by_cases hru : run'.attempts = []
        · refine ⟨it, e, by simp [hru], hout, ?_⟩
          simpa [hru] using h3 hru
        · obtain ⟨itl, el, hget, houtl, hrout⟩ := h4 hru
          refine ⟨itl, el, ?_, houtl, hrout⟩
          obtain ⟨j, hj⟩ : ∃ j, run'.attempts.length = j + 1 :=
            ⟨run'.attempts.length - 1,
              (Nat.succ_pred_eq_of_pos (List.length_pos.mpr hru)).symm⟩
          simp only [List.length_cons, Nat.add_sub_cancel]
          rw [hj, List.get?_cons_succ]
          rw [hj, Nat.add_sub_cancel] at hget
          exact hget
    case isFalse hnd =>
      rw [Option.some_inj] at h
      subst h
      refine ⟨hnd, ?_, ?_, ?_⟩ <;> simp_all

/-- Every run of the retry loop satisfies the `timeoutStepOk` chain on
its attempt records, and the head record carries the entry clock value
and the entry timeout. -/
theorem retryLoopAux_timeout_chain {ρ : Type} {codes : List ℤ}
    {dm md tm mt dl : ℚ} (trace : List (IterInput ρ)) :
    ∀ (now delay timeout : ℚ) (exc : RetryRaise) (run : RetryRun ρ),
    retryLoopAux codes dm md tm mt dl trace now delay timeout exc =
      some run →
    List.Chain' (timeoutStepOk tm mt dl) run.attempts ∧
    (∀ b ∈ run.attempts.head?, b.nowAt = now ∧ b.timeout = timeout) := by
  induction trace with
  | nil =>
    intro now delay timeout exc run h
    rw [retryLoopAux] at h
    split at h
    · exact absurd h (by simp)
    · rw [Option.some_inj] at h
      subst h
      simp
  | cons it rest ih =>
    intro now delay timeout exc run h
    rw [retryLoopAux] at h
    split at h
    case isFalse hnd =>
      rw [Option.some_inj] at h
      subst h
      simp
    case isTrue hnd =>
      cases hoc : it.outcome with
      | success r =>
        simp only [hoc] at h
        rw [Option.some_inj] at h
        subst h
        simp
      | failure e =>
        simp only [hoc] at h
        by_cases hcode : e.code ∈ codes
        · rw [if_pos hcode] at h
          cases hrec : retryLoopAux codes dm md tm mt dl rest
              it.tAfterSleep (delayUpdate delay dm md)
              (timeoutUpdate timeout tm mt (dl - it.tAfterSleep))
              (.deadlineWith e) with
          | none => rw [hrec] at h; exact absurd h (by simp)
          | some run' =>
            rw [hrec, Option.some_inj] at h
            subst h
            obtain ⟨hchain, hhead⟩ := ih it.tAfterSleep _ _ _ run' hrec
            constructor
            · simp only [List.chain'_cons']
              refine ⟨?_, hchain⟩
              intro y hy
              obtain ⟨hynow, hytimeout⟩ := hhead y hy
              constructor
              · rw [hytimeout, hynow]
                exact min_le_right _ _
              · intro hm h0 hmax hrem
                rw [hytimeout, hynow] at *
                exact le_min (le_min (le_mul_of_one_le_right h0 hm) hmax)
                  hrem
            · intro b hb
              simp only [List.head?_cons, Option.mem_def,
                Option.some_inj] at hb
              subst hb
              exact ⟨rfl, rfl⟩
        · rw [if_neg hcode] at h
          rw [Option.some_inj] at h
          subst h
          simp

/-- With a multiplier of at least one and a positive rpc-timeout cap,
the retry loop started with a timeout that is positive whenever time
remains only ever records positive per-attempt timeouts. -/
theorem retryLoopAux_pos_timeouts {ρ : Type} {codes : List ℤ}
    {dm md tm mt dl : ℚ} (htm : 1 ≤ tm) (hmt : 0 < mt)
    (trace : List (IterInput ρ)) :
    ∀ (now delay timeout : ℚ) (exc : RetryRaise) (run : RetryRun ρ),
    (now < dl → 0 < timeout) →
    retryLoopAux codes dm md tm mt dl trace now delay timeout exc =
      some run →
    ∀ rec ∈ run.attempts, 0 < rec.timeout := by
  induction trace with
  | nil =>
    intro now delay timeout exc run hpos h
    rw [retryLoopAux] at h
    split at h
    · exact absurd h (by simp)
    · rw [Option.some_inj] at h
      subst h
      simp
  | cons it rest ih =>
    intro now delay timeout exc run hpos h
    rw [retryLoopAux] at h
    split at h
    case isFalse hnd =>
      rw [Option.some_inj] at h
      subst h
      simp
    case isTrue hnd =>
      have h0 : 0 < timeout := hpos hnd
      cases hoc : it.outcome with
      | success r =>
        simp only [hoc] at h
        rw [Option.some_inj] at h
        subst h
        simpa using h0
      | failure e =>
        simp only [hoc] at h
        by_cases hcode : e.code ∈ codes
        · rw [if_pos hcode] at h
          cases hrec : retryLoopAux codes dm md tm mt dl rest
              it.tAfterSleep (delayUpdate delay dm md)
              (timeoutUpdate timeout tm mt (dl - it.tAfterSleep))
              (.deadlineWith e) with
          | none => rw [hrec] at h; exact absurd h (by simp)
          | some run' =>
            rw [hrec, Option.some_inj] at h
            subst h
            have hrecpos : it.tAfterSleep < dl →
                0 < timeoutUpdate timeout tm mt (dl - it.tAfterSleep) := by
              intro hlt
              have ha : 0 < timeout * tm :=
                mul_pos h0 (lt_of_lt_of_le one_pos htm)
              have hc : 0 < dl - it.tAfterSleep := sub_pos.mpr hlt
              exact lt_min (lt_min ha hmt) hc
            intro rec hrec2
            simp only [List.mem_cons] at hrec2
            rcases hrec2 with rfl | hrec2
            · exact h0
            · exact ih it.tAfterSleep _ _ _ run' hrecpos hrec rec hrec2
        · rw [if_neg hcode] at h
          rw [Option.some_inj] at h
          subst h
          simpa using h0

/-- If the loop, with time remaining, works through transient failures
whose post-sleep clock values all stay below the deadline and then meets
a failure whose code is not transient-classified, it returns the
non-retryable error wrapping that exception at once: exactly one more
attempt than the preceding transient failures, and no sleep after the
final attempt. -/
theorem retryLoopAux_nonretryable {ρ : Type} {codes : List ℤ}
    {dm md tm mt dl : ℚ} {bad : IterInput ρ} {e : Exc}
    {rest : List (IterInput ρ)}
    (hbad : bad.outcome = .failure e) (hcode : e.code ∉ codes)
    (pre : List (IterInput ρ)) :
    ∀ (now delay timeout : ℚ) (exc : RetryRaise),
    (∀ it ∈ pre, isTransientB codes it.outcome = true) →
    (∀ it ∈ pre, it.tAfterSleep < dl) →
    now < dl →
    ∃ run, retryLoopAux codes dm md tm mt dl (pre ++ bad :: rest)
        now delay timeout exc = some run ∧
      run.outcome = .err (.nonRetryable e) ∧
      run.attempts.length = pre.length + 1 ∧
      run.sleeps.length = pre.length := by
  induction pre with
  | nil =>
    intro now delay timeout exc _ _ hnd
    refine ⟨⟨.err (.nonRetryable e), [⟨now, timeout, delay⟩], [], now⟩,
      ?_, rfl, rfl, rfl⟩
    rw [List.nil_append, retryLoopAux, if_pos hnd]
    simp only [hbad]
    rw [if_neg hcode]
  | cons it pre' ih =>
    intro now delay timeout exc hall htimes hnd
    have htr : isTransientB codes it.outcome = true :=
      hall it (List.mem_cons_self it pre')
    obtain ⟨e', hout, hcode'⟩ :
        ∃ e', it.outcome = .failure e' ∧ e'.code ∈ codes := by
      cases hoc : it.outcome with
      | success r => rw [hoc] at htr; simp [isTransientB] at htr
      | failure e' =>
        refine ⟨e', rfl, ?_⟩
        rw [hoc] at htr
        simpa [isTransientB] using htr
    obtain ⟨run', hrec, hrout, hratt, hrsleep⟩ :=
      ih it.tAfterSleep (delayUpdate delay dm md)
        (timeoutUpdate timeout tm mt (dl - it.tAfterSleep))
        (.deadlineWith e')
        (fun x hx => hall x (List.mem_cons_of_mem _ hx))
        (fun x hx => htimes x (List.mem_cons_of_mem _ hx))
        (htimes it (List.mem_cons_self it pre'))
    refine ⟨⟨run'.outcome, ⟨now, timeout, delay⟩ :: run'.attempts,
      it.u / MILLIS_PER_SECOND :: run'.sleeps, run'.finalNow⟩, ?_, ?_, ?_, ?_⟩
    · rw [List.cons_append, retryLoopAux, if_pos hnd]
      simp only [hout]
      rw [if_pos hcode', hrec]
    · simpa using hrout
    · simp [hratt]
    · simp [hrsleep]

/-! ### Claim theorems -/

/-- Claim C1 (code bug).  With `initial_retry_delay = 100 ms`,
`retry_delay_multiplier = 2`, `max_retry_delay = 400 ms`, the delay
bound in force before attempt 2 should be `min(100 * 2, 400) = 200 ms`;
the code instead computes `min(delay * delay_mult, max_delay)` with
`delay` still in milliseconds but `max_delay` converted to seconds
(line 83: `max_retry_delay_millis / _MILLIS_PER_SECOND`), yielding a
bound of 2/5 (0.4 ms), which differs from the consistent-unit value the
claim requires. -/
theorem retry_delay_cap_unit_mismatch :
    (retryable retry1 0 trace1).map
      (fun r => r.attempts.map AttemptRecord.delayBound) =
      some [100, 2/5] ∧
    delayUpdate bs1.initial_retry_delay_millis bs1.retry_delay_multiplier
      (bs1.max_retry_delay_millis / MILLIS_PER_SECOND) = 2/5 ∧
    ((2 : ℚ)/5) ≠ min (bs1.initial_retry_delay_millis *
      bs1.retry_delay_multiplier) bs1.max_retry_delay_millis := by
  refine ⟨?_, ?_, ?_⟩ <;>
    norm_num [retryable, retry1, bs1, trace1, retryLoopAux, delayUpdate,
      timeoutUpdate, MILLIS_PER_SECOND]

/-- Claim C2 (confirmed).  When every call outcome in the trace is a
transient-classified failure and the retry-wrapped call completes, it
fails with a deadline-exceeded `RetryError`; the final observed clock
value is at least `t0 + total_timeout` (so wall-clock time at the raise
is at least the configured total timeout after the start); at least one
attempt is made whenever the total timeout is positive; and the raised
error wraps the last transient cause, or is the generic no-response
error if no attempt was ever made. -/
theorem retryable_deadline_on_all_transient {ρ : Type}
    (retry : RetryOptions) (t0 : ℚ) (trace : List (IterInput ρ))
    (run : RetryRun ρ)
    (hall : ∀ it ∈ trace, isTransientB retry.retry_codes it.outcome = true)
    (h : retryable retry t0 trace = some run) :
    (∃ rr, run.outcome = .err rr ∧ rr.isDeadlineExceeded = true) ∧
    (¬ run.finalNow < t0 +
      retry.backoff_settings.total_timeout_millis / MILLIS_PER_SECOND) ∧
    (0 < retry.backoff_settings.total_timeout_millis →
      run.attempts ≠ []) ∧
    (run.attempts = [] → run.outcome = .err .deadlineNoAttempt) ∧
    (run.attempts ≠ [] →
      ∃ it e, trace.get? (run.attempts.length - 1) = some it ∧
        it.outcome = .failure e ∧
        run.outcome = .err (.deadlineWith e)) := by
  rw [retryable] at h
  obtain ⟨h1, h2, h3, h4⟩ := retryLoopAux_allTransient trace t0
    retry.backoff_settings.initial_retry_delay_millis
    (retry.backoff_settings.initial_rpc_timeout_millis / MILLIS_PER_SECOND)
    .deadlineNoAttempt run hall h
  have hT : 0 < retry.backoff_settings.total_timeout_millis →
      run.attempts ≠ [] := by
    intro hpos
    refine h2 ?_
    have : 0 < retry.backoff_settings.total_timeout_millis /
        MILLIS_PER_SECOND := by
      apply div_pos hpos
      norm_num [MILLIS_PER_SECOND]
    linarith
  refine ⟨?_, h1, hT, h3, h4⟩
  by_cases hru : run.attempts = []
  · exact ⟨.deadlineNoAttempt, h3 hru, rfl⟩
  · obtain ⟨_, e, _, _, hout⟩ := h4 hru
    exact ⟨.deadlineWith e, hout, rfl⟩

/-- Witness for C2: the conclusion instantiated at the concrete
fixture `retry1`, `trace1`, whose run is `run1w`. -/
theorem retryable_deadline_on_all_transient_witness :
    (∃ rr, run1w.outcome = .err rr ∧ rr.isDeadlineExceeded = true) ∧
    (¬ run1w.finalNow < 0 +
      retry1.backoff_settings.total_timeout_millis / MILLIS_PER_SECOND) ∧
    (0 < retry1.backoff_settings.total_timeout_millis →
      run1w.attempts ≠ []) ∧
    (run1w.attempts = [] → run1w.outcome = .err .deadlineNoAttempt) ∧
    (run1w.attempts ≠ [] →
      ∃ it e, trace1.get? (run1w.attempts.length - 1) = some it ∧
        it.outcome = .failure e ∧
        run1w.outcome = .err (.deadlineWith e)) :=
  retryable_deadline_on_all_transient retry1 0 trace1 run1w (by decide)
    (by norm_num [retryable, retry1, bs1, trace1, run1w, retryLoopAux,
      delayUpdate, timeoutUpdate, MILLIS_PER_SECOND])

/-- Counterexample to claim C3 as stated: with retry configured
(non-empty retry codes) and neither paging nor bundling, the callable
composed by `create_api_call` still contains the error-wrapping
(`_catch_errors`) layer, so failures do pass through it. -/
theorem create_api_call_retry_catch_errors_counterexample :
    retryConfigured settings3 = true ∧
    (create_api_call ["AbortionError"] settings3).map usesCatchErrors =
      Except.ok true := by
  constructor <;> rfl

/-- Claim C3 (amended).  Whenever retry with non-empty codes is
configured and neither a page descriptor nor a full bundling
configuration is present, `create_api_call` wraps the retrying call in
the error-wrapping layer (so the layer is NOT skipped when retry is
present — it is skipped only for paged or bundled calls); however, when
`RetryError` is not in the configured API-error set, the failures the
retry layer raises pass through that error-wrapping layer unchanged. -/
theorem create_api_call_catch_errors_when_not_paged_or_bundled
    (api_errors : List String) (settings : CallSettings) (r : RetryOptions)
    (hr : settings.retry = some r) (hcodes : r.retry_codes ≠ [])
    (hpd : settings.page_descriptor = none)
    (hnb : settings.bundler = none ∨ settings.bundle_descriptor = none) :
    create_api_call api_errors settings =
      .ok (.catchErrors (.retrying r) api_errors) ∧
    ("RetryError" ∉ api_errors →
      catch_errors api_errors
          (Except.error (RaisedError.plain "RetryError") :
            Except RaisedError Unit) =
        Except.error (RaisedError.plain "RetryError")) := by
  constructor
  · cases hb : settings.bundler with
    | none =>
      cases hbd : settings.bundle_descriptor <;>
        simp [create_api_call, hr, hcodes, hpd, hb, hbd]
    | some b =>
      cases hbd : settings.bundle_descriptor with
      | none => simp [create_api_call, hr, hcodes, hpd, hb, hbd]
      | some bd => rcases hnb with h | h <;> simp_all
  · intro hmem
    simp [catch_errors, RaisedError.typeName, hmem]

/-- Witness for the amended C3 at the concrete `settings3`. -/
theorem create_api_call_catch_errors_when_not_paged_or_bundled_witness :
    create_api_call ["AbortionError"] settings3 =
      .ok (.catchErrors (.retrying retry1) ["AbortionError"]) ∧
    ("RetryError" ∉ ["AbortionError"] →
      catch_errors ["AbortionError"]
          (Except.error (RaisedError.plain "RetryError") :
            Except RaisedError Unit) =
        Except.error (RaisedError.plain "RetryError")) :=
  create_api_call_catch_errors_when_not_paged_or_bundled ["AbortionError"]
    settings3 retry1 rfl (by decide) rfl (Or.inl rfl)

/-- Claim C4 (confirmed).  For any environment presenting three pages of
sizes 2, 2, 1 whose first two continuation tokens are non-empty and
whose third is empty, the flattened page-streaming generator yields
exactly the five elements in original order while passing exactly three
requests to the underlying call; with zero pulls no underlying call is
made, and stopping after the second element leaves only the single
first call issued. -/
theorem flattened_three_pages {Req Resp ρ : Type} (call : Req → Resp)
    (pf : PageFuns Req Resp ρ) (req0 : Req) (a b c d e : ρ)
    (t1 t2 : String) (ht1 : t1 ≠ "") (ht2 : t2 ≠ "")
    (h1r : pf.resources (call req0) = [a, b])
    (h1t : pf.nextToken (call req0) = t1)
    (h2r : pf.resources (call (pf.setToken req0 t1)) = [c, d])
    (h2t : pf.nextToken (call (pf.setToken req0 t1)) = t2)
    (h3r : pf.resources (call (pf.setToken (pf.setToken req0 t1) t2)) = [e])
    (h3t : pf.nextToken (call (pf.setToken (pf.setToken req0 t1) t2)) = "") :
    flatRun call pf 2 6 (.start req0) =
      some ⟨[a, b, c, d, e], [req0, pf.setToken req0 t1,
        pf.setToken (pf.setToken req0 t1) t2], .done⟩ ∧
    flatRun call pf 2 0 (.start req0) = some ⟨[], [], .start req0⟩ ∧
    flatRun call pf 2 2 (.start req0) =
      some ⟨[a, b], [req0], .mid [] t1 req0⟩ := by
  refine ⟨?_, rfl, ?_⟩ <;>
    simp [flatRun, flatPull, h1r, h1t, h2r, h2t, h3r, h3t, ht1, ht2]

/-- Witness for C4 at the concrete three-page fixture. -/
theorem flattened_three_pages_witness :
    flatRun call3pages pf3pages 2 6 (.start "") =
      some ⟨[1, 2, 3, 4, 5], ["", pf3pages.setToken "" "t1",
        pf3pages.setToken (pf3pages.setToken "" "t1") "t2"], .done⟩ ∧
    flatRun call3pages pf3pages 2 0 (.start "") =
      some ⟨[], [], .start ""⟩ ∧
    flatRun call3pages pf3pages 2 2 (.start "") =
      some ⟨[1, 2], [""], .mid [] "t1" ""⟩ :=
  flattened_three_pages call3pages pf3pages "" 1 2 3 4 5 "t1" "t2"
    (by decide) (by decide) rfl rfl rfl rfl rfl rfl

/-- Counterexample to claim C5 as stated: at the fixture `retry5`,
`trace5` the per-attempt timeouts are 2 s then 1/2 s — strictly
decreasing even though neither timeout ever reached the
`max_rpc_timeout` cap of 30 s (the remaining-deadline term forced the
decrease). -/
theorem timeout_decreases_below_cap_counterexample :
    (retryable retry5 0 trace5).map
      (fun r => r.attempts.map AttemptRecord.timeout) = some [2, 1/2] ∧
    ((1 : ℚ)/2 < 2 ∧ (2 : ℚ) <
      bs5.max_rpc_timeout_millis / MILLIS_PER_SECOND ∧
      (1 : ℚ)/2 < bs5.max_rpc_timeout_millis / MILLIS_PER_SECOND) := by
  refine ⟨?_, ?_, ?_, ?_⟩ <;>
    norm_num [retryable, retry5, bs5, trace5, retryLoopAux, delayUpdate,
      timeoutUpdate, MILLIS_PER_SECOND]

/-- Claim C5 (amended).  Within one invocation of the retry-wrapped
call, each recomputed per-attempt timeout never exceeds
`deadline - now` measured at the moment of recomputation, and the
timeout is non-decreasing from one attempt to the next provided the
multiplier is at least 1 and the earlier timeout is non-negative, at
most `max_rpc_timeout`, and at most the remaining deadline — i.e.
non-decreasing until capped, except when truncated by the remaining
deadline. -/
theorem retryable_timeout_chain {ρ : Type} (retry : RetryOptions)
    (t0 : ℚ) (trace : List (IterInput ρ)) (run : RetryRun ρ)
    (h : retryable retry t0 trace = some run) :
    List.Chain' (timeoutStepOk retry.backoff_settings.rpc_timeout_multiplier
      (retry.backoff_settings.max_rpc_timeout_millis / MILLIS_PER_SECOND)
      (t0 + retry.backoff_settings.total_timeout_millis / MILLIS_PER_SECOND))
      run.attempts := by
  rw [retryable] at h
  exact (retryLoopAux_timeout_chain trace t0
    retry.backoff_settings.initial_retry_delay_millis
    (retry.backoff_settings.initial_rpc_timeout_millis / MILLIS_PER_SECOND)
    .deadlineNoAttempt run h).1

/-- Witness for the amended C5 at the concrete fixture whose run is
`run5w`. -/
theorem retryable_timeout_chain_witness :
    List.Chain' (timeoutStepOk retry5.backoff_settings.rpc_timeout_multiplier
      (retry5.backoff_settings.max_rpc_timeout_millis / MILLIS_PER_SECOND)
      (0 + retry5.backoff_settings.total_timeout_millis / MILLIS_PER_SECOND))
      run5w.attempts :=
  retryable_timeout_chain retry5 0 trace5 run5w
    (by norm_num [retryable, retry5, bs5, trace5, run5w, retryLoopAux,
      delayUpdate, timeoutUpdate, MILLIS_PER_SECOND])

/-- Counterexample to claim C6 as stated: with a positive
`initial_rpc_timeout` (1000 ms) but `max_rpc_timeout = 0`, the
recomputed timeout after the first transient failure is 0 (non-positive)
while the deadline is far from exhausted, and the wrapped callable IS
invoked again — with the non-positive timeout 0. -/
theorem nonpositive_timeout_invoked_counterexample :
    0 < bs6.initial_rpc_timeout_millis ∧
    (retryable retry6 0 trace6).map
      (fun r => r.attempts.map AttemptRecord.timeout) = some [1, 0] ∧
    ¬ (0 : ℚ) < 0 := by
  refine ⟨?_, ?_, ?_⟩ <;>
    norm_num [retryable, retry6, bs6, trace6, retryLoopAux, delayUpdate,
      timeoutUpdate, MILLIS_PER_SECOND]

/-- Claim C6 (amended).  Under the specification's BackoffSettings
invariant strengthened to a positive rpc-timeout cap — positive
`initial_rpc_timeout`, `rpc_timeout_multiplier` at least 1, positive
`max_rpc_timeout` — the wrapped callable is never invoked with a
non-positive timeout; and whenever a recomputed timeout is non-positive
the total deadline is necessarily exhausted, so the loop raises the
pending deadline-exceeded error at the next iteration without invoking
the callable (no attempt record, no sleep). -/
theorem retryable_positive_timeouts {ρ : Type} (retry : RetryOptions)
    (t0 : ℚ) (trace : List (IterInput ρ)) (run : RetryRun ρ)
    (hinit : 0 < retry.backoff_settings.initial_rpc_timeout_millis)
    (htm : 1 ≤ retry.backoff_settings.rpc_timeout_multiplier)
    (hmt : 0 < retry.backoff_settings.max_rpc_timeout_millis)
    (h : retryable retry t0 trace = some run) :
    (∀ rec ∈ run.attempts, 0 < rec.timeout) ∧
    (∀ (trace' : List (IterInput ρ)) (now' delay' t : ℚ)
        (exc' : RetryRaise),
      0 < t →
      timeoutUpdate t retry.backoff_settings.rpc_timeout_multiplier
        (retry.backoff_settings.max_rpc_timeout_millis / MILLIS_PER_SECOND)
        (t0 + retry.backoff_settings.total_timeout_millis /
          MILLIS_PER_SECOND - now') ≤ 0 →
      retryLoopAux retry.retry_codes
        retry.backoff_settings.retry_delay_multiplier
        (retry.backoff_settings.max_retry_delay_millis / MILLIS_PER_SECOND)
        retry.backoff_settings.rpc_timeout_multiplier
        (retry.backoff_settings.max_rpc_timeout_millis / MILLIS_PER_SECOND)
        (t0 + retry.backoff_settings.total_timeout_millis /
          MILLIS_PER_SECOND)
        trace' now' delay'
        (timeoutUpdate t retry.backoff_settings.rpc_timeout_multiplier
          (retry.backoff_settings.max_rpc_timeout_millis /
            MILLIS_PER_SECOND)
          (t0 + retry.backoff_settings.total_timeout_millis /
            MILLIS_PER_SECOND - now'))
        exc' = some ⟨.err exc', [], [], now'⟩) := by
  have hmt' : 0 < retry.backoff_settings.max_rpc_timeout_millis /
      MILLIS_PER_SECOND := by
    apply div_pos hmt
    norm_num [MILLIS_PER_SECOND]
  constructor
  · rw [retryable] at h
    refine retryLoopAux_pos_timeouts htm hmt' trace t0 _ _
      .deadlineNoAttempt run (fun _ => ?_) h
    apply div_pos hinit
    norm_num [MILLIS_PER_SECOND]
  · intro trace' now' delay' t exc' ht hle
    have hrem : t0 + retry.backoff_settings.total_timeout_millis /
        MILLIS_PER_SECOND - now' ≤ 0 := by
      by_contra hpos
      push_neg at hpos
      have ha : 0 < t * retry.backoff_settings.rpc_timeout_multiplier :=
        mul_pos ht (lt_of_lt_of_le one_pos htm)
      have : 0 < timeoutUpdate t
          retry.backoff_settings.rpc_timeout_multiplier
          (retry.backoff_settings.max_rpc_timeout_millis /
            MILLIS_PER_SECOND)
          (t0 + retry.backoff_settings.total_timeout_millis /
            MILLIS_PER_SECOND - now') :=
        lt_min (lt_min ha hmt') hpos
      linarith
    have hnd : ¬ now' < t0 + retry.backoff_settings.total_timeout_millis /
        MILLIS_PER_SECOND := by linarith
    cases trace' <;> rw [retryLoopAux] <;> rw [if_neg hnd]

/-- Witness for the amended C6 at the fixture `retry1`, `trace1`,
`run1w`. -/
theorem retryable_positive_timeouts_witness :
    (∀ rec ∈ run1w.attempts, 0 < rec.timeout) ∧
    (∀ (trace' : List (IterInput Unit)) (now' delay' t : ℚ)
        (exc' : RetryRaise),
      0 < t →
      timeoutUpdate t retry1.backoff_settings.rpc_timeout_multiplier
        (retry1.backoff_settings.max_rpc_timeout_millis / MILLIS_PER_SECOND)
        (0 + retry1.backoff_settings.total_timeout_millis /
          MILLIS_PER_SECOND - now') ≤ 0 →
      retryLoopAux retry1.retry_codes
        retry1.backoff_settings.retry_delay_multiplier
        (retry1.backoff_settings.max_retry_delay_millis / MILLIS_PER_SECOND)
        retry1.backoff_settings.rpc_timeout_multiplier
        (retry1.backoff_settings.max_rpc_timeout_millis / MILLIS_PER_SECOND)
        (0 + retry1.backoff_settings.total_timeout_millis /
          MILLIS_PER_SECOND)
        trace' now' delay'
        (timeoutUpdate t retry1.backoff_settings.rpc_timeout_multiplier
          (retry1.backoff_settings.max_rpc_timeout_millis /
            MILLIS_PER_SECOND)
          (0 + retry1.backoff_settings.total_timeout_millis /
            MILLIS_PER_SECOND - now'))
        exc' = some ⟨.err exc', [], [], now'⟩) :=
  retryable_positive_timeouts retry1 0 trace1 run1w
    (by norm_num [retry1, bs1]) (by norm_num [retry1, bs1])
    (by norm_num [retry1, bs1])
    (by norm_num [retryable, retry1, bs1, trace1, run1w, retryLoopAux,
      delayUpdate, timeoutUpdate, MILLIS_PER_SECOND])

/-- Claim C7 (confirmed).  If, with time remaining, an attempt fails
with an error whose classified code is not in the retry codes —
regardless of how much deadline remains — the retry-wrapped call fails
at once with the non-retryable `RetryError` wrapping that exact cause:
the attempt count is one more than the preceding transient failures,
and no sleep happens after the failing attempt. -/
theorem retryable_nonretryable_immediate {ρ : Type} (retry : RetryOptions)
    (t0 : ℚ) (pre : List (IterInput ρ)) (bad : IterInput ρ)
    (rest : List (IterInput ρ)) (e : Exc)
    (hbad : bad.outcome = .failure e)
    (hcode : e.code ∉ retry.retry_codes)
    (hall : ∀ it ∈ pre, isTransientB retry.retry_codes it.outcome = true)
    (htimes : ∀ it ∈ pre, it.tAfterSleep < t0 +
      retry.backoff_settings.total_timeout_millis / MILLIS_PER_SECOND)
    (hstart : t0 < t0 +
      retry.backoff_settings.total_timeout_millis / MILLIS_PER_SECOND) :
    ∃ run, retryable retry t0 (pre ++ bad :: rest) = some run ∧
      run.outcome = .err (.nonRetryable e) ∧
      run.attempts.length = pre.length + 1 ∧
      run.sleeps.length = pre.length := by
  rw [retryable]
  exact retryLoopAux_nonretryable hbad hcode pre t0 _ _
    .deadlineNoAttempt hall htimes hstart

/-- Witness for C7: one transient failure followed by a failure with
code 5 (not in the retry codes) surfaces immediately. -/
theorem retryable_nonretryable_immediate_witness :
    ∃ run, retryable retry1 0
        ([⟨.failure ⟨14, 0⟩, 0, 1⟩] ++ ⟨.failure ⟨5, 7⟩, 0, 2⟩ ::
          ([] : List (IterInput Unit))) = some run ∧
      run.outcome = .err (.nonRetryable ⟨5, 7⟩) ∧
      run.attempts.length = [(⟨.failure ⟨14, 0⟩, 0, 1⟩ :
        IterInput Unit)].length + 1 ∧
      run.sleeps.length = [(⟨.failure ⟨14, 0⟩, 0, 1⟩ :
        IterInput Unit)].length :=
  retryable_nonretryable_immediate retry1 0 [⟨.failure ⟨14, 0⟩, 0, 1⟩]
    ⟨.failure ⟨5, 7⟩, 0, 2⟩ [] ⟨5, 7⟩ rfl (by decide) (by decide)
    (by norm_num [retry1, bs1, MILLIS_PER_SECOND])
    (by norm_num [retry1, bs1, MILLIS_PER_SECOND])

/-- Claim C8 (confirmed).  For every call-settings value carrying a page
descriptor together with both a bundler and a bundle descriptor,
`create_api_call` fails at composition time with the incompatible
settings `ValueError`; no callable is built, so no underlying call can
occur. -/
theorem create_api_call_incompatible_settings (api_errors : List String)
    (settings : CallSettings) (pd : PageDescriptor) (b : ℕ)
    (bd : BundleDescriptor)
    (hpd : settings.page_descriptor = some pd)
    (hb : settings.bundler = some b)
    (hbd : settings.bundle_descriptor = some bd) :
    create_api_call api_errors settings = .error incompatibleSettingsMsg := by
  simp [create_api_call, hpd, hb, hbd]

/-- Witness for C8 at the concrete `settings8`. -/
theorem create_api_call_incompatible_settings_witness :
    create_api_call [] settings8 = .error incompatibleSettingsMsg :=
  create_api_call_incompatible_settings [] settings8 pd8 0 bd8 rfl rfl rfl

/-- Claim C9 (confirmed, with `compute_bundle_id` modelled from the
spec).  Bundle-key derivation is deterministic and depends only on the
discriminator fields: any two requests agreeing on every field in the
descriptor's `request_discriminator_fields` are given identical bundle
ids by the bundling decorator, whatever their other fields hold. -/
theorem bundle_id_deterministic (desc : BundleDescriptor)
    (r1 r2 : String → String)
    (h : ∀ f ∈ desc.request_discriminator_fields, r1 f = r2 f) :
    (bundleable desc r1).the_id = (bundleable desc r2).the_id := by
  simp only [bundleable, compute_bundle_id]
  exact List.map_congr_left h

/-- Witness for C9: two requests differing outside the discriminator
field get the same bundle id. -/
theorem bundle_id_deterministic_witness :
    (bundleable bd8 req9a).the_id = (bundleable bd8 req9b).the_id :=
  bundle_id_deterministic bd8 req9a req9b (by decide)

/-- Claim C10 (confirmed, with `PageIterator` seeding modelled from the
spec).  In flattened mode the settings' initial page token plays no
role: whenever the flattened generator run makes any underlying call,
the first request passed to the underlying callable is exactly the
caller's request; in unflattened (paged) mode the page token is handed
to the `PageIterator`, which seeds the first request with it. -/
theorem flattened_ignores_page_token {Req Resp ρ : Type}
    (call : Req → Resp) (pf : PageFuns Req Resp ρ) (fuel pulls : ℕ)
    (req : Req) (rr : RunResult Req ρ)
    (h : flatRun call pf fuel pulls (.start req) = some rr)
    (hne : rr.calls ≠ []) :
    rr.calls.head? = some req ∧
    (∀ (tok : String) (req' : Req),
      pageIteratorFirstRequest pf (some tok) req' = pf.setToken req' tok) := by
  refine ⟨?_, fun tok req' => rfl⟩
  cases pulls with
  | zero =>
    rw [flatRun, Option.some_inj] at h
    subst h
    exact absurd rfl hne
  | succ pulls' =>
    rw [flatRun] at h
    cases fuel with
    | zero => rw [flatPull] at h; exact absurd h (by simp)
    | succ fuel' =>
      rw [flatPull] at h
      cases hin : flatPull call pf fuel'
          (.mid (pf.resources (call req)) (pf.nextToken (call req)) req) with
      | none => rw [hin] at h; exact absurd h (by simp)
      | some r =>
        rw [hin] at h
        simp only [] at h
        cases hy : r.yielded with
        | none =>
          rw [hy] at h
          rw [Option.some_inj] at h
          subst h
          rfl
        | some x =>
          rw [hy] at h
          cases hrr : flatRun call pf (fuel' + 1) pulls' r.state with
          | none => rw [hrr] at h; exact absurd h (by simp)
          | some rr' =>
            rw [hrr, Option.some_inj] at h
            subst h
            rfl

/-- Witness for C10 at the concrete three-page fixture: pulling one
element issues exactly one call whose request is the caller's request. -/
theorem flattened_ignores_page_token_witness :
    ((⟨[1], [""], .mid [2] "t1" ""⟩ : RunResult String ℕ).calls.head? =
      some "") ∧
    (∀ (tok : String) (req' : String),
      pageIteratorFirstRequest pf3pages (some tok) req' =
        pf3pages.setToken req' tok) :=
  flattened_ignores_page_token call3pages pf3pages 2 1 ""
    ⟨[1], [""], .mid [2] "t1" ""⟩ (by decide) (by decide)
